import Mathlib

/-!
Verification of the cua Windows service (logon/logoff audit agent).

Shallow embedding of the relevant Rust source:
  - src/windows_api/event_watcher.rs : event model, classification, debounce
  - src/main.rs                      : service_loop callback (SID whitelist)
  - src/windows_api/user_info.rs     : get_user_info, cloud SID decoding
  - src/windows_api/device_info.rs   : get_entra_join_info

External Windows API calls are modelled by an environment record holding
each call's outcome; pure Rust code is translated directly.
-/

namespace Cua

/-! ## Event model (event_watcher.rs) -/

/-- Field of EventData: struct EventDataField with Name attribute and text value. -/
structure EventDataField where
  name : String
  value : String
deriving DecidableEq, Repr

/-- struct EventData: the Data vector. -/
structure EventData where
  data : List EventDataField
deriving DecidableEq, Repr

/-- struct System of event_watcher.rs (renamed to avoid clashing with the Lean
root namespace); the parsed System element, holding the EventID. -/
structure SystemRec where
  event_id : Nat
deriving DecidableEq, Repr

/-- struct Event: parsed event with System and optional EventData. -/
structure Event where
  system : SystemRec
  event_data : Option EventData
deriving DecidableEq, Repr

/-- enum EventIdType. -/
inductive EventIdType where
  | Logon
  | Logoff
  | LogoffInteractive
  | Unknown
deriving DecidableEq, Repr

/-- System::get_event_id_type: match on event_id with a fixed table. -/
def get_event_id_type (s : SystemRec) : EventIdType :=
  match s.event_id with
  | 4624 => EventIdType.Logon
  | 4634 => EventIdType.Logoff
  | 4647 => EventIdType.LogoffInteractive
  | _ => EventIdType.Unknown

/-- EventData::get_value: find the first Data field with the given Name and
return its value. -/
def get_value (ed : EventData) (field_name : String) : Option String :=
  (ed.data.find? (fun field => field.name = field_name)).map (fun field => field.value)

/-! ## service_loop callback (main.rs) -/

/-- Rust str::starts_with, on the character lists of the strings. -/
def rsStartsWith (s p : String) : Bool :=
  p.data.isPrefixOf s.data

/-- The two whitelisted SID prefixes of service_loop (WHITELISTED_SID). -/
def WHITELISTED_SID : List String := ["S-1-5-96", "S-1-5-90"]

/-- Observable effects of one run of logon_logoff_event_callback:
whether the logon_logoff_event info record was emitted, whether
collect_logs was invoked, and whether the no-event-data warning fired. -/
structure CallbackEffect where
  emitted : Bool
  collected : Bool
  warned : Bool
deriving DecidableEq, Repr

/-- logon_logoff_event_callback of main.rs: on Some event_data, look up
TargetUserSid; when present and not matching a whitelisted prefix, emit the
record and collect logs; whitelisted or absent SIDs do nothing; on None
event_data, log a warning. -/
def logon_logoff_event_callback (event : Event) : CallbackEffect :=
  match event.event_data with
  | some event_data =>
    match get_value event_data "TargetUserSid" with
    | some sid =>
      if WHITELISTED_SID.any (fun ignore_sid => rsStartsWith sid ignore_sid) then
        { emitted := false, collected := false, warned := false }
      else
        { emitted := true, collected := true, warned := false }
    | none => { emitted := false, collected := false, warned := false }
  | none => { emitted := false, collected := false, warned := true }

/-! ## Debounce logic (handle_windows_event, event_watcher.rs)

Times (Instant) are modelled as Nat; now.duration_since(last) is Nat
subtraction, matching the saturating monotonic-clock semantics. The
subscription context state is the last_call cell. -/

/-- One delivered event through the debounce gate of handle_windows_event:
given the configured debounce window, the current last_call cell and the
current time, return whether the user callback is invoked and the new
last_call cell. -/
def debounceStep (debounce : Option Nat) (last_call : Option Nat) (now : Nat) :
    Bool × Option Nat :=
  match debounce with
  | none => (true, last_call)
  | some duration =>
    let should_call : Bool :=
      match last_call with
      | none => true
      | some last => decide (duration ≤ now - last)
    if should_call then (true, some now) else (false, last_call)

/-- Process a list of delivery times through the debounce gate, returning
the invocation decision for each delivery in order. -/
def runDeliveries (debounce : Option Nat) : Option Nat → List Nat → List Bool
  | _, [] => []
  | last_call, now :: rest =>
    let step := debounceStep debounce last_call now
    step.1 :: runDeliveries debounce step.2 rest

/-! ## Cloud SID decoding (convert_azure_ad_sid_to_object_id, user_info.rs)

Strings are manipulated as lists of characters; u32 values are Nat with an
explicit bound 2^32 at the parse step. -/

/-- The fixed cloud-identity prefix of the replace call, as characters. -/
def sidPrefix : List Char := ['S', '-', '1', '-', '1', '2', '-', '1', '-']

/-- Rust str::replace with pattern sidPrefix and empty replacement: delete
every non-overlapping occurrence, scanning left to right. -/
def removeSidPrefixAll : List Char → List Char
  | 'S' :: '-' :: '1' :: '-' :: '1' :: '2' :: '-' :: '1' :: '-' :: rest =>
    removeSidPrefixAll rest
  | c :: cs => c :: removeSidPrefixAll cs
  | [] => []

/-- Rust str::split on the separator character: adjacent separators give
empty components, the empty string gives one empty component. -/
def splitOnDash : List Char → List (List Char)
  | [] => [[]]
  | c :: cs =>
    if c = '-' then [] :: splitOnDash cs
    else
      match splitOnDash cs with
      | [] => [[c]]
      | p :: ps => (c :: p) :: ps

/-- Decimal value of a digit string. -/
def digitsVal (ds : List Char) : Nat :=
  ds.foldl (fun a c => a * 10 + (c.toNat - 48)) 0

/-- Rust str::parse::<u32>: optional leading plus sign, then one or more
ASCII digits, value below 2^32; anything else fails. -/
def parseU32 (s : List Char) : Option Nat :=
  let digits : List Char :=
    match s with
    | '+' :: rest => rest
    | _ => s
  if !digits.isEmpty && digits.all (fun c => c.isDigit) then
    let v := digitsVal digits
    if v < 4294967296 then some v else none
  else none

/-- u32::to_le_bytes: the four little-endian bytes of a 32-bit value. -/
def u32ToLeBytes (n : Nat) : List Nat :=
  [n % 256, n / 256 % 256, n / 65536 % 256, n / 16777216 % 256]

/-- Lowercase hexadecimal digit. -/
def hexDigitChar (n : Nat) : Char :=
  if n < 10 then Char.ofNat (48 + n) else Char.ofNat (87 + n)

/-- Two lowercase hex characters of one byte. -/
def byteHexChars (b : Nat) : List Char :=
  [hexDigitChar (b / 16), hexDigitChar (b % 16)]

/-- Hex rendering of a byte list. -/
def bytesHex (bs : List Nat) : List Char :=
  bs.foldr (fun b acc => byteHexChars b ++ acc) []

/-- uuid::Uuid::to_string on 16 bytes: canonical hyphenated lowercase form,
groups of 4, 2, 2, 2 and 6 bytes. -/
def uuidToString (bs : List Nat) : String :=
  String.mk (bytesHex (bs.take 4) ++ '-' :: bytesHex ((bs.drop 4).take 2) ++
    '-' :: bytesHex ((bs.drop 6).take 2) ++ '-' :: bytesHex ((bs.drop 8).take 2) ++
    '-' :: bytesHex (bs.drop 10))

/-- uuid::Uuid::from_slice: succeeds exactly on 16-byte input. -/
def uuidFromSlice (bs : List Nat) : Option (List Nat) :=
  if bs.length = 16 then some bs else none

/-- convert_azure_ad_sid_to_object_id of user_info.rs: delete the cloud
prefix, split on the dash, keep the components that parse as u32, require at
least 4, build 16 little-endian bytes from the first 4 (zero-padding
defensively), and render the UUID. -/
def convert_azure_ad_sid_to_object_id (sid : String) : Option String :=
  let stripped := removeSidPrefixAll sid.data
  let parts : List Nat := (splitOnDash stripped).filterMap parseU32
  if parts.length < 4 then none
  else
    let bytes := (parts.take 4).foldl (fun acc part => acc ++ u32ToLeBytes part) []
    let padded := bytes ++ List.replicate (16 - bytes.length) 0
    (uuidFromSlice padded).map uuidToString

/-- Decoder following the specification text, for comparison with the
source translation: strip the fixed cloud-identity prefix from the SID
string, split the remainder on the separator into numeric sub-authority
components, require at least 4, take the first 4, encode each as 4
little-endian bytes, and render the 16 bytes in canonical form; fewer than
4 numeric components yields none. -/
def cloudSidDecoderSpec (sid : String) : Option String :=
  let remainder := if sidPrefix.isPrefixOf sid.data then sid.data.drop 9 else sid.data
  let comps : List Nat := (splitOnDash remainder).filterMap parseU32
  if comps.length < 4 then none
  else some (uuidToString
    ((comps.take 4).foldl (fun acc part => acc ++ u32ToLeBytes part) []))

/-! ## get_user_info (user_info.rs)

The Windows API calls are modelled by a WinEnv record holding the outcome
each call would produce; get_user_info is translated as a function of that
environment. Besides the Result value, the translation records whether the
user token was acquired and whether RevertToSelf and CloseHandle were
invoked, so that resource-release behaviour on each path is observable. -/

/-- WTS_CONNECTSTATE_CLASS: WTSActive, WTSDisconnected, or any other state. -/
inductive WtsState where
  | active
  | disconnected
  | other (code : Nat)
deriving DecidableEq, Repr

/-- Result buffer of a successful WTSQuerySessionInformationA call: whether
the returned pointer is null, how many bytes were returned, and the connect
state the buffer holds. -/
structure SessionInfoBuf where
  isNull : Bool
  bytesReturned : Nat
  state : WtsState
deriving DecidableEq, Repr

/-- Outcomes of the Windows API calls made by get_user_info. -/
structure WinEnv where
  sessionId : Nat
  queryConnState : Except String SessionInfoBuf
  queryUserToken : Except String Unit
  tokenSid : Except String String
  impersonate : Except String Unit
  userNameOk : Bool
  userNameBuf : String
  revert : Except String Unit
  close : Except String Unit
deriving Repr

/-- struct CurrentUserInfo. -/
structure CurrentUserInfo where
  sid : String
  username : String
  user_type : String
  azure_ad_object_id : Option String
deriving DecidableEq, Repr

/-- Outcome of one run of get_user_info: its Result value plus the
resource bookkeeping (token acquired, RevertToSelf invoked, CloseHandle
invoked). -/
structure UserInfoRun where
  result : Except String (Option CurrentUserInfo)
  tokenAcquired : Bool
  revertCalled : Bool
  closeCalled : Bool
deriving Repr

/-- Tail of get_user_info from the WTSQueryUserToken call on, translated
statement by statement: token query, SID from token, user type, impersonate,
GetUserNameExW, RevertToSelf, CloseHandle, and only then the check of the
GetUserNameExW result. -/
def get_user_info_after_state (env : WinEnv) : UserInfoRun :=
  match env.queryUserToken with
  | Except.error e =>
    { result := Except.error ("Unable to get Token ID for session_id - " ++ e),
      tokenAcquired := false, revertCalled := false, closeCalled := false }
  | Except.ok _ =>
    match env.tokenSid with
    | Except.error e =>
      { result := Except.error e,
        tokenAcquired := true, revertCalled := false, closeCalled := false }
    | Except.ok user_sid =>
      let user_type := if rsStartsWith user_sid "S-1-12-1" then "AzureAD" else "DomainOrLocal"
      match env.impersonate with
      | Except.error e =>
        { result := Except.error e,
          tokenAcquired := true, revertCalled := false, closeCalled := false }
      | Except.ok _ =>
        let username_str := env.userNameBuf
        match env.revert with
        | Except.error e =>
          { result := Except.error e,
            tokenAcquired := true, revertCalled := true, closeCalled := false }
        | Except.ok _ =>
          match env.close with
          | Except.error e =>
            { result := Except.error e,
              tokenAcquired := true, revertCalled := true, closeCalled := true }
          | Except.ok _ =>
            if env.userNameOk = false then
              { result := Except.error "Unable to get Username",
                tokenAcquired := true, revertCalled := true, closeCalled := true }
            else
              let azure_ad_object_id :=
                if user_type = "AzureAD" then convert_azure_ad_sid_to_object_id user_sid
                else none
              { result := Except.ok (some
                  { sid := user_sid, username := username_str,
                    user_type := user_type, azure_ad_object_id := azure_ad_object_id }),
                tokenAcquired := true, revertCalled := true, closeCalled := true }

/-- get_user_info of user_info.rs: sentinel check on the active console
session id, connect-state query with buffer validation, then the token path
of get_user_info_after_state. size_of WTS_CONNECTSTATE_CLASS is 4 bytes. -/
def get_user_info (env : WinEnv) : UserInfoRun :=
  if env.sessionId = 4294967295 then
    { result := Except.ok none,
      tokenAcquired := false, revertCalled := false, closeCalled := false }
  else
    match env.queryConnState with
    | Except.error e =>
      { result := Except.error ("Unable to get TSession Information for session_id - " ++ e),
        tokenAcquired := false, revertCalled := false, closeCalled := false }
    | Except.ok buf =>
      if !buf.isNull && decide (4 ≤ buf.bytesReturned) then
        match buf.state with
        | WtsState.active => get_user_info_after_state env
        | WtsState.disconnected => get_user_info_after_state env
        | WtsState.other _ =>
          { result := Except.ok none,
            tokenAcquired := false, revertCalled := false, closeCalled := false }
      else
        { result := Except.error "Unable to get Session Information for session_id - invalid result buffer size",
          tokenAcquired := false, revertCalled := false, closeCalled := false }

/-- A fully successful environment except that GetTokenInformation (the SID
extraction from the acquired token) fails. -/
def envSidFail : WinEnv :=
  { sessionId := 1, queryConnState := Except.ok { isNull := false, bytesReturned := 4, state := WtsState.active },
    queryUserToken := Except.ok (), tokenSid := Except.error "GetTokenInformation failed",
    impersonate := Except.ok (), userNameOk := true, userNameBuf := "user",
    revert := Except.ok (), close := Except.ok () }

/-- A fully successful environment except that ImpersonateLoggedOnUser
fails. -/
def envImpersonateFail : WinEnv :=
  { sessionId := 1, queryConnState := Except.ok { isNull := false, bytesReturned := 4, state := WtsState.active },
    queryUserToken := Except.ok (), tokenSid := Except.ok "S-1-5-21-1-2-3-1001",
    impersonate := Except.error "ImpersonateLoggedOnUser failed", userNameOk := true, userNameBuf := "user",
    revert := Except.ok (), close := Except.ok () }

/-- A fully successful environment except that RevertToSelf fails. -/
def envRevertFail : WinEnv :=
  { sessionId := 1, queryConnState := Except.ok { isNull := false, bytesReturned := 4, state := WtsState.active },
    queryUserToken := Except.ok (), tokenSid := Except.ok "S-1-5-21-1-2-3-1001",
    impersonate := Except.ok (), userNameOk := true, userNameBuf := "user",
    revert := Except.error "RevertToSelf failed", close := Except.ok () }

/-- Environment whose active-console-session query yields the sentinel
no-session value. -/
def envNoSession : WinEnv :=
  { sessionId := 4294967295, queryConnState := Except.ok { isNull := false, bytesReturned := 4, state := WtsState.active },
    queryUserToken := Except.ok (), tokenSid := Except.ok "S-1-5-21-1-2-3-1001",
    impersonate := Except.ok (), userNameOk := true, userNameBuf := "user",
    revert := Except.ok (), close := Except.ok () }

/-- Environment whose session connect state is neither Active nor
Disconnected. -/
def envOtherState : WinEnv :=
  { sessionId := 1, queryConnState := Except.ok { isNull := false, bytesReturned := 4, state := WtsState.other 5 },
    queryUserToken := Except.ok (), tokenSid := Except.ok "S-1-5-21-1-2-3-1001",
    impersonate := Except.ok (), userNameOk := true, userNameBuf := "user",
    revert := Except.ok (), close := Except.ok () }

/-- Environment whose connect-state query returns an undersized (null,
zero-byte) result buffer. -/
def envBadBuffer : WinEnv :=
  { sessionId := 1, queryConnState := Except.ok { isNull := true, bytesReturned := 0, state := WtsState.active },
    queryUserToken := Except.ok (), tokenSid := Except.ok "S-1-5-21-1-2-3-1001",
    impersonate := Except.ok (), userNameOk := true, userNameBuf := "user",
    revert := Except.ok (), close := Except.ok () }

/-! ## get_entra_join_info (device_info.rs)

Registry access is modelled by a Registry record holding the outcome each
open, keys enumeration and value read would produce. The external x509
library (X509Certificate::from_der plus the two subject-attribute lookups)
is a function parameter: it yields some (dc, cn) exactly when the parse
succeeded and both attribute lookups returned Ok(Some _); every other
outcome is collapsed to none, matching the source, which inserts into the
attribute map only in that one case and otherwise skips the certificate. -/

/-- struct EntraJoinInfo. -/
structure EntraJoinInfo where
  tenant_id : String
  device_id : String
  registered_user : String
deriving DecidableEq, Repr

/-- Per-certificate registry outcomes: the open of the key subpath and the
read of its Blob value (a byte list). -/
structure CertEntry where
  openRes : Except String Unit
  blobRes : Except String (List Nat)
deriving Repr

/-- Per-tenant-join registry outcomes: the open of the key subpath and the
reads of the TenantId and UserEmail string values. -/
structure TenantEntry where
  openRes : Except String Unit
  tenantIdRes : Except String String
  userEmailRes : Except String String
deriving Repr

/-- Registry outcomes for one run: the opens of the two subtree roots and
the keys enumerations beneath them. -/
structure Registry where
  certRootOpen : Except String Unit
  certKeysRes : Except String (List CertEntry)
  tenantRootOpen : Except String Unit
  tenantKeysRes : Except String (List TenantEntry)
deriving Repr

/-- The certificate_start_sequence marker bytes. -/
def certStartSeq : List Nat := [32, 0, 0, 0, 1, 0, 0, 0]

/-- Position of the first 8-byte window equal to certStartSeq
(Iterator::position over windows(8)). -/
def findCertMarker (blob : List Nat) : Option Nat :=
  ((List.range (blob.length - 7)).find? (fun i => (blob.drop i).take 8 = certStartSeq))

/-- Panic-free projection of the marker extraction of get_entra_join_info:
when the marker window is found at position w, collect everything from
w + 8 + 4 on; otherwise the certificate byte vector stays empty. Where the
source would panic (slice start beyond the blob length, that is marker
found with fewer than 4 bytes after it) this total version yields the
empty drop; the faithful semantics with the panic made explicit is
extractCertBytesChecked below, and the two agree on all non-panicking
blobs (extractCertBytesChecked_some). -/
def extractCertBytes (blob : List Nat) : List Nat :=
  match findCertMarker blob with
  | some w => blob.drop (w + 12)
  | none => []

/-- The marker extraction with the source's slice semantics made explicit:
the Rust slice certificate_blob_bytes from index w + 12 on (device_info.rs
line 39) panics when w + 12 exceeds the blob length, because the 4-byte
length field after the marker is skipped, never validated; none models
that panic, some the extracted bytes. -/
def extractCertBytesChecked (blob : List Nat) : Option (List Nat) :=
  match findCertMarker blob with
  | some w => if w + 12 ≤ blob.length then some (blob.drop (w + 12)) else none
  | none => some []

/-- HashMap::insert on the association-list model: the new binding wins
over any previous binding of the same key. -/
def mapInsert (m : List (String × String)) (k v : String) : List (String × String) :=
  (k, v) :: m.filter (fun p => p.1 ≠ k)

/-- HashMap::get on the association-list model. -/
def mapGet (m : List (String × String)) (k : String) : Option String :=
  (m.find? (fun p => p.1 = k)).map (fun p => p.2)

/-- First loop of get_entra_join_info: build the certificate attribute map.
Registry failures propagate; a certificate the x509 oracle rejects is
skipped. -/
def buildCertMap (x509 : List Nat → Option (String × String)) :
    List CertEntry → List (String × String) → Except String (List (String × String))
  | [], m => Except.ok m
  | entry :: rest, m =>
    match entry.openRes with
    | Except.error e => Except.error e
    | Except.ok _ =>
      match entry.blobRes with
      | Except.error e => Except.error e
      | Except.ok blob =>
        let certificate_bytes := extractCertBytes blob
        match x509 certificate_bytes with
        | some dccn => buildCertMap x509 rest (mapInsert m dccn.1 dccn.2)
        | none => buildCertMap x509 rest m

/-- Second loop of get_entra_join_info: one EntraJoinInfo per tenant-join
key, device_id looked up in the attribute map by tenant_id with empty-string
default; registry failures propagate. -/
def readTenantEntries (m : List (String × String)) :
    List TenantEntry → Except String (List EntraJoinInfo)
  | [] => Except.ok []
  | entry :: rest =>
    match entry.openRes with
    | Except.error e => Except.error e
    | Except.ok _ =>
      match entry.tenantIdRes with
      | Except.error e => Except.error e
      | Except.ok tenant_id =>
        match entry.userEmailRes with
        | Except.error e => Except.error e
        | Except.ok registered_user =>
          let device_id := (mapGet m tenant_id).getD ""
          match readTenantEntries m rest with
          | Except.error e => Except.error e
          | Except.ok results =>
            Except.ok ({ tenant_id := tenant_id, device_id := device_id,
                         registered_user := registered_user } :: results)

/-- get_entra_join_info of device_info.rs: open and enumerate the
certificate subtree, build the attribute map, open and enumerate the
tenant-join subtree, and emit one record per tenant-join key. -/
def get_entra_join_info (x509 : List Nat → Option (String × String))
    (reg : Registry) : Except String (List EntraJoinInfo) :=
  match reg.certRootOpen with
  | Except.error e => Except.error e
  | Except.ok _ =>
    match reg.certKeysRes with
    | Except.error e => Except.error e
    | Except.ok certificate_keys =>
      match buildCertMap x509 certificate_keys [] with
      | Except.error e => Except.error e
      | Except.ok certificate_map =>
        match reg.tenantRootOpen with
        | Except.error e => Except.error e
        | Except.ok _ =>
          match reg.tenantKeysRes with
          | Except.error e => Except.error e
          | Except.ok tenant_join_keys =>
            readTenantEntries certificate_map tenant_join_keys

/-- Outcome of a run of code that may panic: a normal value, an error
return, or a panic that aborts without returning either. -/
inductive RunOutcome (α : Type) where
  | ok (a : α)
  | err (e : String)
  | panicked
deriving DecidableEq, Repr

/-- First loop of get_entra_join_info with the slice panic made explicit:
registry failures propagate as err, a truncated blob (marker found with
fewer than 4 bytes after it) panics, and a certificate the x509 oracle
rejects is skipped. -/
def buildCertMapChecked (x509 : List Nat → Option (String × String)) :
    List CertEntry → List (String × String) → RunOutcome (List (String × String))
  | [], m => RunOutcome.ok m
  | entry :: rest, m =>
    match entry.openRes with
    | Except.error e => RunOutcome.err e
    | Except.ok _ =>
      match entry.blobRes with
      | Except.error e => RunOutcome.err e
      | Except.ok blob =>
        match extractCertBytesChecked blob with
        | none => RunOutcome.panicked
        | some certificate_bytes =>
          match x509 certificate_bytes with
          | some dccn => buildCertMapChecked x509 rest (mapInsert m dccn.1 dccn.2)
          | none => buildCertMapChecked x509 rest m

/-- get_entra_join_info with the slice panic made explicit: the certificate
phase may panic on a truncated blob; the tenant phase has no panic point
and is the readTenantEntries loop unchanged. -/
def get_entra_join_info_checked (x509 : List Nat → Option (String × String))
    (reg : Registry) : RunOutcome (List EntraJoinInfo) :=
  match reg.certRootOpen with
  | Except.error e => RunOutcome.err e
  | Except.ok _ =>
    match reg.certKeysRes with
    | Except.error e => RunOutcome.err e
    | Except.ok certificate_keys =>
      match buildCertMapChecked x509 certificate_keys [] with
      | RunOutcome.err e => RunOutcome.err e
      | RunOutcome.panicked => RunOutcome.panicked
      | RunOutcome.ok certificate_map =>
        match reg.tenantRootOpen with
        | Except.error e => RunOutcome.err e
        | Except.ok _ =>
          match reg.tenantKeysRes with
          | Except.error e => RunOutcome.err e
          | Except.ok tenant_join_keys =>
            match readTenantEntries certificate_map tenant_join_keys with
            | Except.error e => RunOutcome.err e
            | Except.ok results => RunOutcome.ok results

/-- x509 oracle that rejects every certificate. -/
def x509None : List Nat → Option (String × String) := fun _ => none

/-- x509 oracle that accepts every certificate with fixed attributes. -/
def x509Const : List Nat → Option (String × String) := fun _ => some ("tenantA", "deviceA")

/-- Certificate entry whose registry reads both succeed. -/
def certOkEntry : CertEntry :=
  { openRes := Except.ok (), blobRes := Except.ok [32, 0, 0, 0, 1, 0, 0, 0, 9, 9, 9, 9, 7] }

/-- Certificate entry whose Blob value read fails. -/
def certBlobFailEntry : CertEntry :=
  { openRes := Except.ok (), blobRes := Except.error "blob read failed" }

/-- Tenant-join entry whose registry reads all succeed, for tenant B (no
certificate). -/
def tenantOkEntry : TenantEntry :=
  { openRes := Except.ok (), tenantIdRes := Except.ok "tenantB",
    userEmailRes := Except.ok "user at example" }

/-- Tenant-join entry whose TenantId string read fails. -/
def tenantReadFailEntry : TenantEntry :=
  { openRes := Except.ok (), tenantIdRes := Except.error "TenantId read failed",
    userEmailRes := Except.ok "user at example" }

/-- Registry in which every access succeeds: one parsed certificate, one
tenant-join entry. -/
def regAllOk : Registry :=
  { certRootOpen := Except.ok (), certKeysRes := Except.ok [certOkEntry],
    tenantRootOpen := Except.ok (), tenantKeysRes := Except.ok [tenantOkEntry] }

/-- Registry whose tenant-join subtree open fails while the certificate
phase succeeds. -/
def regTenantOpenFail : Registry :=
  { certRootOpen := Except.ok (), certKeysRes := Except.ok [certOkEntry],
    tenantRootOpen := Except.error "tenant subtree open failed",
    tenantKeysRes := Except.ok [tenantOkEntry] }

/-- Registry with a failing certificate Blob read. -/
def regCertBlobFail : Registry :=
  { certRootOpen := Except.ok (), certKeysRes := Except.ok [certBlobFailEntry],
    tenantRootOpen := Except.ok (), tenantKeysRes := Except.ok [tenantOkEntry] }

/-- Registry with a failing tenant-join string value read. -/
def regTenantValueFail : Registry :=
  { certRootOpen := Except.ok (), certKeysRes := Except.ok [certOkEntry],
    tenantRootOpen := Except.ok (), tenantKeysRes := Except.ok [tenantReadFailEntry] }

/-- Certificate entry whose reads succeed but whose Blob is exactly the
8 marker bytes: the slice from index 12 on then starts past the end and
the source panics. -/
def certTruncatedEntry : CertEntry :=
  { openRes := Except.ok (), blobRes := Except.ok [32, 0, 0, 0, 1, 0, 0, 0] }

/-- Registry with a truncated-blob certificate entry followed by an entry
whose Blob read fails: the source panics on the first entry before ever
reaching the second entry's read failure. -/
def regTruncatedThenFail : Registry :=
  { certRootOpen := Except.ok (),
    certKeysRes := Except.ok [certTruncatedEntry, certBlobFailEntry],
    tenantRootOpen := Except.ok (), tenantKeysRes := Except.ok [tenantOkEntry] }

/-! # Theorems -/

/-- Helper: with no debounce window configured, every delivery invokes the
callback. -/
lemma runDeliveries_none_all (last : Option Nat) (ts : List Nat) :
    runDeliveries none last ts = ts.map (fun _ => true) := by
  induction ts generalizing last with
  | nil => rfl
  | cons t rest ih => simp [runDeliveries, debounceStep, ih]

/-- C8: get_event_id_type is a pure, total function on event ids with no
failure mode: 4624 maps to Logon, 4634 to Logoff, 4647 to
LogoffInteractive, and every other event id maps to Unknown. -/
theorem c8_classify_pure_total (n : Nat) :
    get_event_id_type { event_id := n } =
      (if n = 4624 then EventIdType.Logon
       else if n = 4634 then EventIdType.Logoff
       else if n = 4647 then EventIdType.LogoffInteractive
       else EventIdType.Unknown) := by
  by_cases h1 : n = 4624
  · subst h1; rfl
  by_cases h2 : n = 4634
  · subst h2; rfl
  by_cases h3 : n = 4647
  · subst h3; rfl
  rw [if_neg h1, if_neg h2, if_neg h3]
  unfold get_event_id_type
  split
  · simp_all
  · simp_all
  · simp_all
  · rfl

/-- C10: when event_data is present but has no TargetUserSid field, the
callback emits no record, collects nothing and logs no warning; a warning
is logged only when event_data is entirely absent. -/
theorem c10_missing_sid_dropped_silently :
    (∀ (event : Event) (ed : EventData), event.event_data = some ed →
       get_value ed "TargetUserSid" = none →
       logon_logoff_event_callback event =
         { emitted := false, collected := false, warned := false }) ∧
    (∀ event : Event, event.event_data = none →
       (logon_logoff_event_callback event).warned = true) := by
  constructor
  · intro event ed hed hsid
    simp [logon_logoff_event_callback, hed, hsid]
  · intro event hed
    simp [logon_logoff_event_callback, hed]

/-- Witness for C10 at concrete events: event_data present without a
TargetUserSid field, and event_data absent. -/
theorem c10_witness :
    logon_logoff_event_callback
      { system := { event_id := 4624 },
        event_data := some { data := [{ name := "LogonType", value := "2" }] } } =
      { emitted := false, collected := false, warned := false } ∧
    (logon_logoff_event_callback
      { system := { event_id := 4634 }, event_data := none }).warned = true :=
  ⟨c10_missing_sid_dropped_silently.1 _ { data := [{ name := "LogonType", value := "2" }] }
      rfl (by decide),
   c10_missing_sid_dropped_silently.2 _ rfl⟩

/-- C7: a qualifying event whose TargetUserSid starts with a whitelisted
prefix emits no record and triggers no collection; any other TargetUserSid
present emits the record and triggers collection. -/
theorem c7_sid_whitelist (event : Event) (ed : EventData) (sid : String)
    (hed : event.event_data = some ed)
    (hsid : get_value ed "TargetUserSid" = some sid) :
    ((rsStartsWith sid "S-1-5-96" = true ∨ rsStartsWith sid "S-1-5-90" = true) →
       logon_logoff_event_callback event =
         { emitted := false, collected := false, warned := false }) ∧
    ((rsStartsWith sid "S-1-5-96" = false ∧ rsStartsWith sid "S-1-5-90" = false) →
       logon_logoff_event_callback event =
         { emitted := true, collected := true, warned := false }) := by
  constructor
  · intro h
    have hany : WHITELISTED_SID.any (fun p => rsStartsWith sid p) = true := by
      rcases h with h | h <;> simp [WHITELISTED_SID, h]
    simp [logon_logoff_event_callback, hed, hsid, hany]
  · rintro ⟨h1, h2⟩
    have hany : WHITELISTED_SID.any (fun p => rsStartsWith sid p) = false := by
      simp [WHITELISTED_SID, h1, h2]
    simp [logon_logoff_event_callback, hed, hsid, hany]

/-- Witness for C7 at concrete events: a whitelisted virtual-account SID
and a normal interactive SID. -/
theorem c7_witness :
    logon_logoff_event_callback
      { system := { event_id := 4624 },
        event_data := some { data := [{ name := "TargetUserSid", value := "S-1-5-96-0-1" }] } } =
      { emitted := false, collected := false, warned := false } ∧
    logon_logoff_event_callback
      { system := { event_id := 4624 },
        event_data := some { data := [{ name := "TargetUserSid", value := "S-1-12-1-1-2-3-4" }] } } =
      { emitted := true, collected := true, warned := false } :=
  ⟨(c7_sid_whitelist _ { data := [{ name := "TargetUserSid", value := "S-1-5-96-0-1" }] }
      "S-1-5-96-0-1" rfl (by decide)).1 (Or.inl (by decide)),
   (c7_sid_whitelist _ { data := [{ name := "TargetUserSid", value := "S-1-12-1-1-2-3-4" }] }
      "S-1-12-1-1-2-3-4" rfl (by decide)).2 ⟨by decide, by decide⟩⟩

/-- C2: the debounce policy of handle_windows_event: with no window the
callback always fires; with window W the callback fires iff there is no
prior invocation or at least W has elapsed since it, the timestamp is
updated to now exactly on invocation, and the delivery sequence
t0, t0 + W/2, t0 + W, t0 + 2W fires exactly at t0, t0 + W and t0 + 2W. -/
theorem c2_debounce_policy (W t0 : Nat) (hW : 0 < W) :
    (∀ (last : Option Nat) (now : Nat),
       (debounceStep (some W) last now).1 = true ↔
         (last = none ∨ ∃ l, last = some l ∧ W ≤ now - l)) ∧
    (∀ (last : Option Nat) (now : Nat),
       (debounceStep (some W) last now).1 = true →
         (debounceStep (some W) last now).2 = some now) ∧
    (∀ (last : Option Nat) (ts : List Nat),
       runDeliveries none last ts = ts.map (fun _ => true)) ∧
    runDeliveries (some W) none [t0, t0 + W / 2, t0 + W, t0 + 2 * W] =
      [true, false, true, true] := by
  refine ⟨?_, ?_, ?_, ?_⟩
  · intro last now
    cases last with
    | none => simp [debounceStep]
    | some l =>
      simp only [debounceStep]
      by_cases hc : W ≤ now - l <;> simp [hc]
  · intro last now h
    cases last with
    | none => simp [debounceStep]
    | some l =>
      simp only [debounceStep] at h ⊢
      by_cases hc : W ≤ now - l
      · simp [hc]
      · simp [hc] at h
  · exact fun last ts => runDeliveries_none_all last ts
  · have h1 : ¬ (W ≤ W / 2) := by omega
    have h2 : t0 + W - t0 = W := by omega
    have h3 : t0 + 2 * W - (t0 + W) = W := by omega
    simp [runDeliveries, debounceStep, h1, h2, h3]

/-- Witness for C2 at W = 2, t0 = 0: deliveries at 0, 1, 2, 4 fire at
0, 2 and 4 only. -/
theorem c2_witness :
    runDeliveries (some 2) none [0, 1, 2, 4] = [true, false, true, true] :=
  (c2_debounce_policy 2 0 (by decide)).2.2.2

/-- Helper: on a character list without the letter S, the replace-all of
the cloud prefix is the identity. -/
lemma removeSidPrefixAll_no_S (l : List Char) (h : 'S' ∉ l) :
    removeSidPrefixAll l = l := by
  induction l with
  | nil => rfl
  | cons c cs ih =>
    unfold removeSidPrefixAll
    split
    · simp_all
    · rename_i heq
      injection heq with h1 h2
      subst h1
      subst h2
      rw [ih (fun hm => h (List.mem_cons_of_mem c hm))]
    · simp_all

/-- Helper: removing the prefix from a list that starts with it just
recurses on the tail. -/
lemma removeSidPrefixAll_prefix (rest : List Char) :
    removeSidPrefixAll (sidPrefix ++ rest) = removeSidPrefixAll rest := rfl

/-- Helper: the byte accumulator of the decoder grows by exactly 4 bytes
per component. -/
lemma leBytes_foldl_length (ps : List Nat) (acc : List Nat) :
    (ps.foldl (fun acc part => acc ++ u32ToLeBytes part) acc).length =
      acc.length + 4 * ps.length := by
  induction ps generalizing acc with
  | nil => simp
  | cons p rest ih =>
    rw [List.foldl_cons, ih]
    simp [u32ToLeBytes]
    omega

/-- C3: on a SID that starts with the cloud-identity prefix and whose
remainder holds no further copy of it, the source decoder agrees with the
decoder written from the specification text (strip the prefix, split,
require at least 4 numeric components, encode the first 4 as little-endian
bytes, render canonically); fewer than 4 numeric components after the
prefix yields none rather than an error, and the result is deterministic. -/
theorem c3_decoder_matches_spec (sid : String)
    (hpre : sidPrefix.isPrefixOf sid.data = true)
    (hS : 'S' ∉ sid.data.drop 9) :
    convert_azure_ad_sid_to_object_id sid = cloudSidDecoderSpec sid ∧
    (((splitOnDash (sid.data.drop 9)).filterMap parseU32).length < 4 →
       convert_azure_ad_sid_to_object_id sid = none) ∧
    (∀ sid2 : String, sid2 = sid →
       convert_azure_ad_sid_to_object_id sid2 = convert_azure_ad_sid_to_object_id sid) := by
  have hdata : sid.data = sidPrefix ++ sid.data.drop 9 := by
    have hp : sidPrefix <+: sid.data := by
      rwa [← List.isPrefixOf_iff_prefix]
    obtain ⟨t, ht⟩ := hp
    have hlen : sidPrefix.length = 9 := rfl
    have : sid.data.drop 9 = t := by
      rw [← ht, ← hlen, List.drop_left]
    rw [this, ht]
  have hstrip : removeSidPrefixAll sid.data = sid.data.drop 9 := by
    calc removeSidPrefixAll sid.data
        = removeSidPrefixAll (sidPrefix ++ sid.data.drop 9) := by rw [← hdata]
      _ = removeSidPrefixAll (sid.data.drop 9) := removeSidPrefixAll_prefix _
      _ = sid.data.drop 9 := removeSidPrefixAll_no_S _ hS
  refine ⟨?_, ?_, ?_⟩
  · unfold convert_azure_ad_sid_to_object_id cloudSidDecoderSpec
    rw [hstrip, if_pos hpre]
    by_cases hlen : ((splitOnDash (sid.data.drop 9)).filterMap parseU32).length < 4
    · simp [hlen]
    · simp only [if_neg hlen]
      have h4 : (((splitOnDash (sid.data.drop 9)).filterMap parseU32).take 4).length = 4 := by
        simp [List.length_take]
        omega
      have h16 : ((((splitOnDash (sid.data.drop 9)).filterMap parseU32).take 4).foldl
          (fun acc part => acc ++ u32ToLeBytes part) []).length = 16 := by
        rw [leBytes_foldl_length, h4]
        decide
      simp [uuidFromSlice, h16]
  · intro hlen
    unfold convert_azure_ad_sid_to_object_id
    rw [hstrip, if_pos hlen]
  · intro sid2 h
    rw [h]

/-- Witness for C3 at the concrete cloud SID. -/
theorem c3_witness :
    convert_azure_ad_sid_to_object_id "S-1-12-1-1-2-3-4" =
      cloudSidDecoderSpec "S-1-12-1-1-2-3-4" :=
  (c3_decoder_matches_spec "S-1-12-1-1-2-3-4" (by decide) (by decide)).1

/-- C9: components that do not parse as u32 are silently dropped by the
filter, so the at-least-4 requirement counts only numeric components, and
the SID with an extra non-numeric component decodes to the identifier built
from the numeric components 1, 2, 3, 4. -/
theorem c9_nonnumeric_components_dropped :
    (∀ (pre : List (List Char)) (mid : List Char) (post : List (List Char)),
       parseU32 mid = none →
       (pre ++ mid :: post).filterMap parseU32 = (pre ++ post).filterMap parseU32) ∧
    convert_azure_ad_sid_to_object_id "S-1-12-1-1-x-2-3-4" =
      convert_azure_ad_sid_to_object_id "S-1-12-1-1-2-3-4" ∧
    convert_azure_ad_sid_to_object_id "S-1-12-1-1-x-2-3-4" =
      some "01000000-0200-0000-0300-000004000000" := by
  refine ⟨?_, by decide, by decide⟩
  intro pre mid post h
  simp [List.filterMap_append, List.filterMap_cons, h]

/-- Witness for C9 at a concrete non-numeric component. -/
theorem c9_witness :
    ((([] : List (List Char)) ++ ['x'] :: []).filterMap parseU32 =
       (([] : List (List Char)) ++ []).filterMap parseU32) ∧
    convert_azure_ad_sid_to_object_id "S-1-12-1-1-x-2-3-4" =
      some "01000000-0200-0000-0300-000004000000" :=
  ⟨c9_nonnumeric_components_dropped.1 [] ['x'] [] (by decide),
   c9_nonnumeric_components_dropped.2.2⟩

/-- C6: get_user_info returns Ok none on the sentinel no-session id and on
a connect state that is neither Active nor Disconnected, while a
successful connect-state query with a null or undersized result buffer is
a hard error. -/
theorem c6_no_session_paths (env : WinEnv) :
    (env.sessionId = 4294967295 → (get_user_info env).result = Except.ok none) ∧
    (∀ (buf : SessionInfoBuf) (code : Nat),
       env.sessionId ≠ 4294967295 →
       env.queryConnState = Except.ok buf →
       buf.isNull = false → 4 ≤ buf.bytesReturned → buf.state = WtsState.other code →
       (get_user_info env).result = Except.ok none) ∧
    (∀ buf : SessionInfoBuf,
       env.sessionId ≠ 4294967295 →
       env.queryConnState = Except.ok buf →
       (buf.isNull = true ∨ buf.bytesReturned < 4) →
       ∃ e, (get_user_info env).result = Except.error e) := by
  refine ⟨?_, ?_, ?_⟩
  · intro h
    simp [get_user_info, h]
  · intro buf code hs hq hnull hbytes hstate
    simp [get_user_info, hs, hq, hnull, hbytes, hstate]
  · intro buf hs hq hbad
    refine ⟨"Unable to get Session Information for session_id - invalid result buffer size", ?_⟩
    rcases hbad with h | h
    · simp [get_user_info, hs, hq, h]
    · have hb : ¬ (4 ≤ buf.bytesReturned) := by omega
      simp [get_user_info, hs, hq, hb]

/-- Witness for C6 at concrete environments: sentinel session id, an Idle
connect state, and a null result buffer. -/
theorem c6_witness :
    (get_user_info envNoSession).result = Except.ok none ∧
    (get_user_info envOtherState).result = Except.ok none ∧
    (∃ e, (get_user_info envBadBuffer).result = Except.error e) :=
  ⟨(c6_no_session_paths envNoSession).1 rfl,
   (c6_no_session_paths envOtherState).2.1
     { isNull := false, bytesReturned := 4, state := WtsState.other 5 } 5
     (by decide) rfl rfl (by decide) rfl,
   (c6_no_session_paths envBadBuffer).2.2
     { isNull := true, bytesReturned := 0, state := WtsState.active }
     (by decide) rfl (Or.inl rfl)⟩

/-- C1: evaluation of get_user_info at the failing environments: once the
token has been acquired, the early error returns for a failed SID
extraction, a failed impersonation and a failed revert leave the token
handle open (and the first two never reach RevertToSelf), contradicting the
claim that both cleanups run on every exit path. -/
theorem c1_cleanup_not_on_every_path :
    ((get_user_info envSidFail).tokenAcquired = true ∧
     (get_user_info envSidFail).revertCalled = false ∧
     (get_user_info envSidFail).closeCalled = false ∧
     (get_user_info envSidFail).result = Except.error "GetTokenInformation failed") ∧
    ((get_user_info envImpersonateFail).tokenAcquired = true ∧
     (get_user_info envImpersonateFail).closeCalled = false) ∧
    ((get_user_info envRevertFail).tokenAcquired = true ∧
     (get_user_info envRevertFail).revertCalled = true ∧
     (get_user_info envRevertFail).closeCalled = false) :=
  ⟨⟨rfl, rfl, rfl, rfl⟩, ⟨rfl, rfl⟩, ⟨rfl, rfl, rfl⟩⟩

/-- Helper: a successful readTenantEntries yields one record per entry, in
order, with tenant_id and registered_user from the entry's reads and
device_id looked up in the map with empty-string default. -/
lemma readTenantEntries_ok_spec (m : List (String × String)) :
    ∀ (ts : List TenantEntry) (rs : List EntraJoinInfo),
      readTenantEntries m ts = Except.ok rs →
      rs.length = ts.length ∧
      ∀ (i : Nat) (entry : TenantEntry) (tid email : String),
        ts[i]? = some entry →
        entry.tenantIdRes = Except.ok tid →
        entry.userEmailRes = Except.ok email →
        rs[i]? = some { tenant_id := tid, device_id := (mapGet m tid).getD "",
                        registered_user := email } := by
  intro ts
  induction ts with
  | nil =>
    intro rs h
    simp only [readTenantEntries] at h
    injection h with h
    subst h
    refine ⟨rfl, ?_⟩
    intro i entry tid email hi
    simp at hi
  | cons e rest ih =>
    intro rs h
    simp only [readTenantEntries] at h
    split at h
    · exact Except.noConfusion h
    split at h
    · exact Except.noConfusion h
    rename_i tid0 htid0
    split at h
    · exact Except.noConfusion h
    rename_i email0 hemail0
    split at h
    · exact Except.noConfusion h
    rename_i results hres
    injection h with h
    subst h
    obtain ⟨hlen, hidx⟩ := ih results hres
    refine ⟨by simp [hlen], ?_⟩
    intro i entry tid email hi htid hemail
    cases i with
    | zero =>
      simp only [List.getElem?_cons_zero] at hi
      injection hi with hi
      subst hi
      rw [htid0] at htid
      injection htid with htid
      subst htid
      rw [hemail0] at hemail
      injection hemail with hemail
      subst hemail
      simp
    | succ j =>
      simp only [List.getElem?_cons_succ] at hi ⊢
      exact hidx j entry tid email hi htid hemail

/-- C4: when get_entra_join_info succeeds it returns exactly one record per
tenant-join entry, and an entry whose tenant_id is absent from the
certificate attribute map yields a record with empty device_id rather than
being omitted. -/
theorem c4_record_per_tenant_entry (x509 : List Nat → Option (String × String))
    (reg : Registry) (ks : List CertEntry) (m : List (String × String))
    (ts : List TenantEntry) (rs : List EntraJoinInfo)
    (h1 : reg.certRootOpen = Except.ok ())
    (h2 : reg.certKeysRes = Except.ok ks)
    (h3 : buildCertMap x509 ks [] = Except.ok m)
    (h4 : reg.tenantRootOpen = Except.ok ())
    (h5 : reg.tenantKeysRes = Except.ok ts)
    (h6 : get_entra_join_info x509 reg = Except.ok rs) :
    rs.length = ts.length ∧
    ∀ (i : Nat) (entry : TenantEntry) (tid email : String),
      ts[i]? = some entry →
      entry.tenantIdRes = Except.ok tid →
      entry.userEmailRes = Except.ok email →
      mapGet m tid = none →
      rs[i]? = some { tenant_id := tid, device_id := "", registered_user := email } := by
  have hread : readTenantEntries m ts = Except.ok rs := by
    simp only [get_entra_join_info, h1, h2, h3, h4, h5] at h6
    exact h6
  obtain ⟨hlen, hidx⟩ := readTenantEntries_ok_spec m ts rs hread
  refine ⟨hlen, ?_⟩
  intro i entry tid email hi htid hemail hnone
  have hrec := hidx i entry tid email hi htid hemail
  rw [hnone] at hrec
  simpa using hrec

/-- Witness for C4 at a concrete registry: one tenant-join entry for
tenant B, no matching certificate, one record with empty device_id. -/
theorem c4_witness :
    ([{ tenant_id := "tenantB", device_id := "", registered_user := "user at example" }] :
        List EntraJoinInfo).length = ([tenantOkEntry] : List TenantEntry).length ∧
    ([{ tenant_id := "tenantB", device_id := "", registered_user := "user at example" }] :
        List EntraJoinInfo)[0]? =
      some { tenant_id := "tenantB", device_id := "", registered_user := "user at example" } :=
  ⟨(c4_record_per_tenant_entry x509None regAllOk [certOkEntry] [] [tenantOkEntry]
      [{ tenant_id := "tenantB", device_id := "", registered_user := "user at example" }]
      rfl rfl rfl rfl rfl rfl).1,
   (c4_record_per_tenant_entry x509None regAllOk [certOkEntry] [] [tenantOkEntry]
      [{ tenant_id := "tenantB", device_id := "", registered_user := "user at example" }]
      rfl rfl rfl rfl rfl rfl).2 0 tenantOkEntry "tenantB" "user at example" rfl rfl rfl rfl⟩

/-- Helper: a successful readTenantEntries means every tenant entry's
registry reads succeeded. -/
lemma readTenantEntries_ok_reads (m : List (String × String)) :
    ∀ (ts : List TenantEntry) (rs : List EntraJoinInfo),
      readTenantEntries m ts = Except.ok rs →
      ∀ entry ∈ ts, entry.openRes = Except.ok () ∧
        (∃ tid, entry.tenantIdRes = Except.ok tid) ∧
        (∃ email, entry.userEmailRes = Except.ok email) := by
  intro ts
  induction ts with
  | nil =>
    intro rs h entry hmem
    simp at hmem
  | cons e rest ih =>
    intro rs h entry hmem
    simp only [readTenantEntries] at h
    split at h
    · exact Except.noConfusion h
    rename_i u hop
    split at h
    · exact Except.noConfusion h
    rename_i tid0 htid0
    split at h
    · exact Except.noConfusion h
    rename_i email0 hemail0
    split at h
    · exact Except.noConfusion h
    rename_i results hres
    rcases List.mem_cons.mp hmem with heq | hm2
    · subst heq
      exact ⟨by rw [hop], ⟨tid0, htid0⟩, ⟨email0, hemail0⟩⟩
    · exact ih results hres entry hm2

/-- Helper: when every tenant entry's reads succeed, readTenantEntries
succeeds. -/
lemma readTenantEntries_all_ok (m : List (String × String)) :
    ∀ ts : List TenantEntry,
      (∀ entry ∈ ts, entry.openRes = Except.ok () ∧
        (∃ tid, entry.tenantIdRes = Except.ok tid) ∧
        (∃ email, entry.userEmailRes = Except.ok email)) →
      ∃ rs, readTenantEntries m ts = Except.ok rs := by
  intro ts
  induction ts with
  | nil =>
    intro _
    exact ⟨[], rfl⟩
  | cons e rest ih =>
    intro hall
    obtain ⟨hop, ⟨tid, htid⟩, ⟨email, hemail⟩⟩ := hall e (List.mem_cons_self e rest)
    obtain ⟨rs, hrs⟩ := ih (fun entry hm => hall entry (List.mem_cons_of_mem e hm))
    refine ⟨{ tenant_id := tid, device_id := (mapGet m tid).getD "",
              registered_user := email } :: rs, ?_⟩
    simp only [readTenantEntries, hop, htid, hemail, hrs]

/-- Helper: on a blob where the checked extraction does not panic, it
agrees with the panic-free projection. -/
lemma extractCertBytesChecked_some (blob bytes : List Nat)
    (h : extractCertBytesChecked blob = some bytes) :
    extractCertBytes blob = bytes := by
  cases hm : findCertMarker blob with
  | none =>
    simp only [extractCertBytesChecked, hm] at h
    injection h with h
    simp only [extractCertBytes, hm]
    exact h
  | some w =>
    simp only [extractCertBytesChecked, hm] at h
    split at h
    · injection h with h
      simp only [extractCertBytes, hm]
      exact h
    · exact Option.noConfusion h

/-- Helper: a successful checked buildCertMap means every certificate
entry's registry reads succeeded. -/
lemma buildCertMapChecked_ok_reads (x509 : List Nat → Option (String × String)) :
    ∀ (ks : List CertEntry) (m0 m : List (String × String)),
      buildCertMapChecked x509 ks m0 = RunOutcome.ok m →
      ∀ entry ∈ ks, entry.openRes = Except.ok () ∧
        ∃ blob, entry.blobRes = Except.ok blob := by
  intro ks
  induction ks with
  | nil =>
    intro m0 m h entry hmem
    simp at hmem
  | cons c rest ih =>
    intro m0 m h entry hmem
    simp only [buildCertMapChecked] at h
    split at h
    · exact RunOutcome.noConfusion h
    rename_i u hop
    split at h
    · exact RunOutcome.noConfusion h
    rename_i blob hblob
    split at h
    · exact RunOutcome.noConfusion h
    rename_i bytes hchk
    rcases List.mem_cons.mp hmem with heq | hm2
    · subst heq
      exact ⟨by rw [hop], blob, hblob⟩
    · split at h
      · exact ih _ _ h entry hm2
      · exact ih _ _ h entry hm2

/-- Helper: a panicking checked buildCertMap exhibits a truncated blob:
some entry's registry reads succeeded and its blob makes the slice start
exceed the blob length. -/
lemma buildCertMapChecked_panicked_mem (x509 : List Nat → Option (String × String)) :
    ∀ (ks : List CertEntry) (m0 : List (String × String)),
      buildCertMapChecked x509 ks m0 = RunOutcome.panicked →
      ∃ entry ∈ ks, ∃ blob, entry.openRes = Except.ok () ∧
        entry.blobRes = Except.ok blob ∧ extractCertBytesChecked blob = none := by
  intro ks
  induction ks with
  | nil =>
    intro m0 h
    exact RunOutcome.noConfusion h
  | cons c rest ih =>
    intro m0 h
    simp only [buildCertMapChecked] at h
    split at h
    · exact RunOutcome.noConfusion h
    rename_i u hop
    split at h
    · exact RunOutcome.noConfusion h
    rename_i blob hblob
    split at h
    · rename_i hchk
      exact ⟨c, List.mem_cons_self c rest, blob, by rw [hop], hblob, hchk⟩
    · rename_i bytes hchk
      split at h
      · obtain ⟨entry, hm, w⟩ := ih _ h
        exact ⟨entry, List.mem_cons_of_mem c hm, w⟩
      · obtain ⟨entry, hm, w⟩ := ih _ h
        exact ⟨entry, List.mem_cons_of_mem c hm, w⟩

/-- Helper: when every certificate entry's reads succeed and no blob
triggers the slice panic, the checked buildCertMap succeeds for every
x509 oracle. -/
lemma buildCertMapChecked_all_ok (x509 : List Nat → Option (String × String)) :
    ∀ (ks : List CertEntry) (m0 : List (String × String)),
      (∀ entry ∈ ks, entry.openRes = Except.ok () ∧
        ∃ blob, entry.blobRes = Except.ok blob) →
      (∀ entry ∈ ks, ∀ blob, entry.blobRes = Except.ok blob →
        extractCertBytesChecked blob ≠ none) →
      ∃ m, buildCertMapChecked x509 ks m0 = RunOutcome.ok m := by
  intro ks
  induction ks with
  | nil =>
    intro m0 _ _
    exact ⟨m0, rfl⟩
  | cons c rest ih =>
    intro m0 hall hsafe
    obtain ⟨hop, blob, hblob⟩ := hall c (List.mem_cons_self c rest)
    have hrest : ∀ entry ∈ rest, entry.openRes = Except.ok () ∧
        ∃ b, entry.blobRes = Except.ok b :=
      fun entry hm => hall entry (List.mem_cons_of_mem c hm)
    have hsrest : ∀ entry ∈ rest, ∀ b, entry.blobRes = Except.ok b →
        extractCertBytesChecked b ≠ none :=
      fun entry hm => hsafe entry (List.mem_cons_of_mem c hm)
    cases hchk : extractCertBytesChecked blob with
    | none => exact absurd hchk (hsafe c (List.mem_cons_self c rest) blob hblob)
    | some bytes =>
      cases hx : x509 bytes with
      | some dccn =>
        obtain ⟨m, hm⟩ := ih (mapInsert m0 dccn.1 dccn.2) hrest hsrest
        refine ⟨m, ?_⟩
        simp only [buildCertMapChecked, hop, hblob, hchk, hx]
        exact hm
      | none =>
        obtain ⟨m, hm⟩ := ih m0 hrest hsrest
        refine ⟨m, ?_⟩
        simp only [buildCertMapChecked, hop, hblob, hchk, hx]
        exact hm

/-- Helper: every panic-free successful run of the checked certificate
loop is a successful run of the panic-free projection with the same map,
so the Except-typed model covers exactly the real successful runs. -/
lemma buildCertMapChecked_ok_agrees (x509 : List Nat → Option (String × String)) :
    ∀ (ks : List CertEntry) (m0 m : List (String × String)),
      buildCertMapChecked x509 ks m0 = RunOutcome.ok m →
      buildCertMap x509 ks m0 = Except.ok m := by
  intro ks
  induction ks with
  | nil =>
    intro m0 m h
    injection h with h
    subst h
    rfl
  | cons c rest ih =>
    intro m0 m h
    simp only [buildCertMapChecked] at h
    split at h
    · exact RunOutcome.noConfusion h
    rename_i u hop
    split at h
    · exact RunOutcome.noConfusion h
    rename_i blob hblob
    split at h
    · exact RunOutcome.noConfusion h
    rename_i bytes hchk
    have hbytes : extractCertBytes blob = bytes :=
      extractCertBytesChecked_some blob bytes hchk
    split at h
    · rename_i dccn hx
      have hrec := ih _ _ h
      simp only [buildCertMap, hop, hblob, hbytes, hx]
      exact hrec
    · rename_i hx
      have hrec := ih _ _ h
      simp only [buildCertMap, hop, hblob, hbytes, hx]
      exact hrec

/-- Helper: every panic-free successful run of the checked
get_entra_join_info is a successful run of the Except-typed model with the
same records. -/
lemma get_entra_join_info_checked_ok_agrees
    (x509 : List Nat → Option (String × String)) (reg : Registry)
    (rs : List EntraJoinInfo)
    (h : get_entra_join_info_checked x509 reg = RunOutcome.ok rs) :
    get_entra_join_info x509 reg = Except.ok rs := by
  simp only [get_entra_join_info_checked] at h
  split at h
  · exact RunOutcome.noConfusion h
  rename_i u1 h1
  split at h
  · exact RunOutcome.noConfusion h
  rename_i ks h2
  split at h
  · exact RunOutcome.noConfusion h
  · exact RunOutcome.noConfusion h
  rename_i m hb
  split at h
  · exact RunOutcome.noConfusion h
  rename_i u2 h4
  split at h
  · exact RunOutcome.noConfusion h
  rename_i ts h5
  split at h
  · exact RunOutcome.noConfusion h
  rename_i results hres
  injection h with h
  subst h
  simp only [get_entra_join_info, h1, h2, buildCertMapChecked_ok_agrees x509 ks [] m hb,
    h4, h5, hres]

/-- Counterexample to C5 as stated: in regTruncatedThenFail the second
certificate entry has a Blob value read failure, yet the call does not
abort with an error return — the source panics on the first entry's
truncated blob (slice start 12 beyond blob length 8, device_info.rs line
39) before reaching the failing read, returning neither an error nor
records. -/
theorem c5_counterexample :
    certBlobFailEntry ∈ [certTruncatedEntry, certBlobFailEntry] ∧
    certBlobFailEntry.blobRes = Except.error "blob read failed" ∧
    regTruncatedThenFail.certKeysRes =
      Except.ok [certTruncatedEntry, certBlobFailEntry] ∧
    get_entra_join_info_checked x509None regTruncatedThenFail =
      RunOutcome.panicked ∧
    (∀ e, get_entra_join_info_checked x509None regTruncatedThenFail ≠
      RunOutcome.err e) ∧
    (∀ rs, get_entra_join_info_checked x509None regTruncatedThenFail ≠
      RunOutcome.ok rs) := by
  have hrun : get_entra_join_info_checked x509None regTruncatedThenFail =
      RunOutcome.panicked := rfl
  refine ⟨?_, rfl, rfl, hrun, ?_, ?_⟩
  · exact List.mem_cons_of_mem certTruncatedEntry
      (List.mem_cons_self certBlobFailEntry [])
  · intro e he
    rw [hrun] at he
    exact RunOutcome.noConfusion he
  · intro rs hr
    rw [hrun] at hr
    exact RunOutcome.noConfusion hr

/-- C5 amended: over the panic-explicit model, on runs where no
successfully-read certificate blob makes the unvalidated slice panic
(marker found with fewer than 4 bytes after it), every registry open or
read failure — certificate subtree root or keys, a certificate Blob value,
the tenant-join subtree root or keys, or a tenant-join string value —
aborts the entire call with an error and zero records, even when
certificates were already found, while an x509 rejection of a certificate
is non-fatal and merely skips it; on a run that does hold such a truncated
blob the call panics instead of returning. -/
theorem c5_registry_failures_amended (x509 : List Nat → Option (String × String))
    (reg : Registry) :
    (∀ e, reg.certRootOpen = Except.error e →
       get_entra_join_info_checked x509 reg = RunOutcome.err e) ∧
    (∀ e, reg.certRootOpen = Except.ok () → reg.certKeysRes = Except.error e →
       get_entra_join_info_checked x509 reg = RunOutcome.err e) ∧
    (∀ (ks : List CertEntry) (entry : CertEntry),
       reg.certRootOpen = Except.ok () → reg.certKeysRes = Except.ok ks →
       (∀ entry2 ∈ ks, ∀ blob, entry2.blobRes = Except.ok blob →
         extractCertBytesChecked blob ≠ none) →
       entry ∈ ks →
       ((∃ e, entry.openRes = Except.error e) ∨
         (∃ e, entry.blobRes = Except.error e)) →
       ∃ e2, get_entra_join_info_checked x509 reg = RunOutcome.err e2) ∧
    (∀ (ks : List CertEntry) (m : List (String × String)) (e : String),
       reg.certRootOpen = Except.ok () → reg.certKeysRes = Except.ok ks →
       buildCertMapChecked x509 ks [] = RunOutcome.ok m →
       reg.tenantRootOpen = Except.error e →
       get_entra_join_info_checked x509 reg = RunOutcome.err e) ∧
    (∀ (ks : List CertEntry) (m : List (String × String)) (e : String),
       reg.certRootOpen = Except.ok () → reg.certKeysRes = Except.ok ks →
       buildCertMapChecked x509 ks [] = RunOutcome.ok m →
       reg.tenantRootOpen = Except.ok () → reg.tenantKeysRes = Except.error e →
       get_entra_join_info_checked x509 reg = RunOutcome.err e) ∧
    (∀ (ks : List CertEntry) (m : List (String × String)) (ts : List TenantEntry)
       (entry : TenantEntry),
       reg.certRootOpen = Except.ok () → reg.certKeysRes = Except.ok ks →
       buildCertMapChecked x509 ks [] = RunOutcome.ok m →
       reg.tenantRootOpen = Except.ok () → reg.tenantKeysRes = Except.ok ts →
       entry ∈ ts →
       ((∃ e, entry.openRes = Except.error e) ∨
         (∃ e, entry.tenantIdRes = Except.error e) ∨
         (∃ e, entry.userEmailRes = Except.error e)) →
       ∃ e2, get_entra_join_info_checked x509 reg = RunOutcome.err e2) ∧
    (∀ (ks : List CertEntry) (ts : List TenantEntry),
       reg.certRootOpen = Except.ok () → reg.certKeysRes = Except.ok ks →
       reg.tenantRootOpen = Except.ok () → reg.tenantKeysRes = Except.ok ts →
       (∀ entry ∈ ks, entry.openRes = Except.ok () ∧
         ∃ blob, entry.blobRes = Except.ok blob) →
       (∀ entry ∈ ks, ∀ blob, entry.blobRes = Except.ok blob →
         extractCertBytesChecked blob ≠ none) →
       (∀ entry ∈ ts, entry.openRes = Except.ok () ∧
         (∃ tid, entry.tenantIdRes = Except.ok tid) ∧
         (∃ email, entry.userEmailRes = Except.ok email)) →
       ∃ rs, get_entra_join_info_checked x509 reg = RunOutcome.ok rs) ∧
    (∀ (entry : CertEntry) (rest : List CertEntry) (m : List (String × String))
       (blob bytes : List Nat),
       entry.openRes = Except.ok () → entry.blobRes = Except.ok blob →
       extractCertBytesChecked blob = some bytes → x509 bytes = none →
       buildCertMapChecked x509 (entry :: rest) m = buildCertMapChecked x509 rest m) ∧
    (∀ (entry : CertEntry) (rest : List CertEntry) (blob : List Nat),
       reg.certRootOpen = Except.ok () →
       reg.certKeysRes = Except.ok (entry :: rest) →
       entry.openRes = Except.ok () → entry.blobRes = Except.ok blob →
       extractCertBytesChecked blob = none →
       get_entra_join_info_checked x509 reg = RunOutcome.panicked) := by
  refine ⟨?_, ?_, ?_, ?_, ?_, ?_, ?_, ?_, ?_⟩
  · intro e h
    simp only [get_entra_join_info_checked, h]
  · intro e h1 h2
    simp only [get_entra_join_info_checked, h1, h2]
  · intro ks entry h1 h2 hsafe hmem hfail
    cases hb : buildCertMapChecked x509 ks [] with
    | err e =>
      refine ⟨e, ?_⟩
      simp only [get_entra_join_info_checked, h1, h2, hb]
    | panicked =>
      obtain ⟨entry2, hm2, blob, hop2, hblob2, hchk2⟩ :=
        buildCertMapChecked_panicked_mem x509 ks [] hb
      exact absurd hchk2 (hsafe entry2 hm2 blob hblob2)
    | ok m =>
      obtain ⟨hop, blob, hblob⟩ :=
        buildCertMapChecked_ok_reads x509 ks [] m hb entry hmem
      rcases hfail with ⟨e, he⟩ | ⟨e, he⟩
      · rw [hop] at he
        exact Except.noConfusion he
      · rw [hblob] at he
        exact Except.noConfusion he
  · intro ks m e h1 h2 h3 h4
    simp only [get_entra_join_info_checked, h1, h2, h3, h4]
  · intro ks m e h1 h2 h3 h4 h5
    simp only [get_entra_join_info_checked, h1, h2, h3, h4, h5]
  · intro ks m ts entry h1 h2 h3 h4 h5 hmem hfail
    cases hr : readTenantEntries m ts with
    | error e =>
      refine ⟨e, ?_⟩
      simp only [get_entra_join_info_checked, h1, h2, h3, h4, h5, hr]
    | ok rs =>
      obtain ⟨hop, ⟨tid, htid⟩, ⟨email, hemail⟩⟩ :=
        readTenantEntries_ok_reads m ts rs hr entry hmem
      rcases hfail with ⟨e, he⟩ | ⟨e, he⟩ | ⟨e, he⟩
      · rw [hop] at he
        exact Except.noConfusion he
      · rw [htid] at he
        exact Except.noConfusion he
      · rw [hemail] at he
        exact Except.noConfusion he
  · intro ks ts h1 h2 h4 h5 hks hsafe hts
    obtain ⟨m, hm⟩ := buildCertMapChecked_all_ok x509 ks [] hks hsafe
    obtain ⟨rs, hrs⟩ := readTenantEntries_all_ok m ts hts
    refine ⟨rs, ?_⟩
    simp only [get_entra_join_info_checked, h1, h2, hm, h4, h5, hrs]
  · intro entry rest m blob bytes hop hblob hchk hx
    simp only [buildCertMapChecked, hop, hblob, hchk, hx]
  · intro entry rest blob h1 h2 hop hblob hchk
    have hb : buildCertMapChecked x509 (entry :: rest) [] = RunOutcome.panicked := by
      simp only [buildCertMapChecked, hop, hblob, hchk]
    simp only [get_entra_join_info_checked, h1, h2, hb]

/-- Witness for the amended C5 at concrete registries: tenant-subtree open
failure after a certificate was found, a certificate Blob read failure, a
tenant-join string read failure, an all-reads-succeed run, and a
truncated-blob panic run. -/
theorem c5_amended_witness :
    get_entra_join_info_checked x509Const regTenantOpenFail =
      RunOutcome.err "tenant subtree open failed" ∧
    (∃ e2, get_entra_join_info_checked x509None regCertBlobFail =
      RunOutcome.err e2) ∧
    (∃ e2, get_entra_join_info_checked x509None regTenantValueFail =
      RunOutcome.err e2) ∧
    (∃ rs, get_entra_join_info_checked x509None regAllOk = RunOutcome.ok rs) ∧
    get_entra_join_info_checked x509None regTruncatedThenFail =
      RunOutcome.panicked :=
  ⟨(c5_registry_failures_amended x509Const regTenantOpenFail).2.2.2.1
      [certOkEntry] [("tenantA", "deviceA")] "tenant subtree open failed"
      rfl rfl rfl rfl,
   (c5_registry_failures_amended x509None regCertBlobFail).2.2.1
      [certBlobFailEntry] certBlobFailEntry rfl rfl
      (fun entry2 hm blob hb => by
        rw [List.mem_singleton] at hm
        subst hm
        exact Except.noConfusion hb)
      (List.mem_singleton.mpr rfl) (Or.inr ⟨"blob read failed", rfl⟩),
   (c5_registry_failures_amended x509None regTenantValueFail).2.2.2.2.2.1
      [certOkEntry] [] [tenantReadFailEntry] tenantReadFailEntry
      rfl rfl rfl rfl rfl (List.mem_singleton.mpr rfl)
      (Or.inr (Or.inl ⟨"TenantId read failed", rfl⟩)),
   (c5_registry_failures_amended x509None regAllOk).2.2.2.2.2.2.1
      [certOkEntry] [tenantOkEntry] rfl rfl rfl rfl
      (fun entry hm => by
        rw [List.mem_singleton] at hm
        subst hm
        exact ⟨rfl, [32, 0, 0, 0, 1, 0, 0, 0, 9, 9, 9, 9, 7], rfl⟩)
      (fun entry hm blob hb => by
        rw [List.mem_singleton] at hm
        subst hm
        injection hb with hb
        rw [← hb]
        decide)
      (fun entry hm => by
        rw [List.mem_singleton] at hm
        subst hm
        exact ⟨rfl, ⟨"tenantB", rfl⟩, ⟨"user at example", rfl⟩⟩),
   (c5_registry_failures_amended x509None regTruncatedThenFail).2.2.2.2.2.2.2.2
      certTruncatedEntry [certBlobFailEntry] [32, 0, 0, 0, 1, 0, 0, 0]
      rfl rfl rfl rfl rfl⟩

end Cua
